import Mathlib

/-!
Verification of the pesaqrgen payload core: the CRC-16/CCITT checksum engine
(src/utils/crc16.ts) and the M-Pesa QR payload builder (generateQRValue,
validateNumber, formatNumber in src/App.tsx), embedded shallowly over
`List Char` (JavaScript strings) and `Nat` (JavaScript numbers, with explicit
16-bit masking where the source masks).
-/

namespace PesaQR

/-- Characters of a string literal, the `List Char` view of a JS string. -/
def str (s : String) : List Char := s.data

/-- The three payment types of the UI: the TS union `'paybill' | 'till' | 'phone'`. -/
inductive PaymentType where
  | paybill
  | till
  | phone
  deriving DecidableEq

/-- JS `value.replace(/[^\d]/g, '')`: keep only decimal digits. -/
def cleanDigits (l : List Char) : List Char := l.filter Char.isDigit

/-- Tail of the phone regexes: exactly eight further decimal digits. -/
def digits8 (r : List Char) : Bool := r.length == 8 && r.all Char.isDigit

/-- The regex `/^254[7]\d{8}$/` as a predicate on the cleaned digits. -/
def re254 : List Char → Bool
  | '2' :: '5' :: '4' :: '7' :: r => digits8 r
  | _ => false

/-- The regex `/^0[7]\d{8}$/` as a predicate on the cleaned digits. -/
def re0 : List Char → Bool
  | '0' :: '7' :: r => digits8 r
  | _ => false

/-- The regex `/^[7]\d{8}$/` as a predicate on the cleaned digits. -/
def re7 : List Char → Bool
  | '7' :: r => digits8 r
  | _ => false

/-- `validateNumber` from src/App.tsx: falsy (empty) input is rejected, then the
digit-stripped value is matched against the per-type pattern. -/
def validateNumber (pt : PaymentType) (value : List Char) : Bool :=
  if value.isEmpty then false
  else
    match pt with
    | .paybill => (cleanDigits value).length == 6 && (cleanDigits value).all Char.isDigit
    | .till =>
      ((cleanDigits value).length == 5 || (cleanDigits value).length == 6) &&
      (cleanDigits value).all Char.isDigit
    | .phone =>
      if (str "254").isPrefixOf (cleanDigits value) then re254 (cleanDigits value)
      else if (str "0").isPrefixOf (cleanDigits value) then re0 (cleanDigits value)
      else re7 (cleanDigits value)

/-- `formatNumber` from src/App.tsx: strip non-digits; for phone numbers,
normalize to the `254`-prefixed international form. -/
def formatNumber (pt : PaymentType) (value : List Char) : List Char :=
  if pt = PaymentType.phone then
    if (str "254").isPrefixOf (cleanDigits value) then cleanDigits value
    else if (str "0").isPrefixOf (cleanDigits value) then
      str "254" ++ (cleanDigits value).drop 1
    else if (cleanDigits value).length == 9 then str "254" ++ cleanDigits value
    else cleanDigits value
  else cleanDigits value

/-- One iteration of the inner loop of `crc16ccitt`: test bit 15, shift left,
conditionally XOR the polynomial 0x1021, then `crc &= 0xFFFF`. -/
def crcBit (crc : Nat) : Nat :=
  if crc &&& 0x8000 ≠ 0 then ((crc <<< 1) ^^^ 0x1021) &&& 0xFFFF
  else (crc <<< 1) &&& 0xFFFF

/-- Per-character step of `crc16ccitt`: `crc ^= c << 8` followed by the inner
loop `for (j = 0; j < 8; j++)`. -/
def crcChar (crc c : Nat) : Nat :=
  (List.range 8).foldl (fun r _ => crcBit r) (crc ^^^ (c <<< 8))

/-- The register computation of `crc16ccitt` over a list of code units,
starting from 0xFFFF. -/
def crc16num (cs : List Nat) : Nat := cs.foldl crcChar 0xFFFF

/-- A digit of JS `Number.prototype.toString(base)`: `0`-`9` then lowercase `a`-`f`. -/
def hexDigitChar (n : Nat) : Char :=
  if n < 10 then Char.ofNat (48 + n) else Char.ofNat (87 + n)

/-- Fuel-indexed base-16 rendering; with fuel above the argument it agrees with
JS `n.toString(16)`. -/
def natToHexAux : Nat → Nat → List Char
  | 0, _ => []
  | fuel + 1, n =>
    if n < 16 then [hexDigitChar n]
    else natToHexAux fuel (n / 16) ++ [hexDigitChar (n % 16)]

/-- JS `n.toString(16)`: minimal-width lowercase hexadecimal digits. -/
def natToHexLower (n : Nat) : List Char := natToHexAux (n + 1) n

/-- Fuel-indexed base-10 rendering; with fuel above the argument it agrees with
JS `n.toString()`. -/
def natToDecAux : Nat → Nat → List Char
  | 0, _ => []
  | fuel + 1, n =>
    if n < 10 then [Char.ofNat (48 + n)]
    else natToDecAux fuel (n / 10) ++ [Char.ofNat (48 + n % 10)]

/-- JS `n.toString()`: minimal-width decimal digits. -/
def natToDec (n : Nat) : List Char := natToDecAux (n + 1) n

/-- JS `s.padStart(w, '0')`: left-pad with `'0'` to width `w`. -/
def padZero (w : Nat) (l : List Char) : List Char :=
  List.replicate (w - l.length) '0' ++ l

/-- `crc16ccitt` from src/utils/crc16.ts:
`crc.toString(16).toUpperCase().padStart(4, '0')` of the final register. -/
def crc16ccitt (s : List Char) : List Char :=
  padZero 4 ((natToHexLower (crc16num (s.map Char.toNat))).map Char.toUpper)

/-- The `v.length.toString().padStart(2, '0')` length prefix used for every
dynamically emitted TLV field in `generateQRValue`. -/
def lenField (v : List Char) : List Char := padZero 2 (natToDec v.length)

/-- The `merchantInfo` accumulator of `generateQRValue`: the hardcoded GUID
sub-field `'00' + '14' + 'A000000677010111'` followed by the per-type target
sub-field and, for paybill with a truthy account number, the account sub-field. -/
def merchantInfoFor (pt : PaymentType) (formattedNumber accountNumber : List Char) :
    List Char :=
  str "00" ++ str "14" ++ str "A000000677010111" ++
  (match pt with
   | .paybill =>
     str "01" ++ lenField formattedNumber ++ formattedNumber ++
     (if accountNumber.isEmpty then []
      else str "02" ++ lenField accountNumber ++ accountNumber)
   | .till => str "03" ++ lenField formattedNumber ++ formattedNumber
   | .phone => str "04" ++ lenField formattedNumber ++ formattedNumber)

/-- The `qrText` accumulator of `generateQRValue` just after `qrText += '6304'`:
everything the checksum is computed over. -/
def qrBody (pt : PaymentType) (formattedNumber accountNumber businessName : List Char) :
    List Char :=
  str "000201" ++ str "0102" ++
  (str "26" ++ lenField (merchantInfoFor pt formattedNumber accountNumber) ++
    merchantInfoFor pt formattedNumber accountNumber) ++
  str "5303KES" ++ str "5802KE" ++
  (if businessName.isEmpty then []
   else str "59" ++ lenField businessName ++ businessName) ++
  str "6304"

/-- `generateQRValue` from src/App.tsx: empty or invalid number yields `''`;
otherwise the TLV payload is assembled and terminated by the CRC over
everything before it, including the `6304` header. -/
def generateQRValue (pt : PaymentType) (number accountNumber businessName : List Char) :
    List Char :=
  if number.isEmpty then []
  else
    let formattedNumber := formatNumber pt number
    if !validateNumber pt number then []
    else
      qrBody pt formattedNumber accountNumber businessName ++
      crc16ccitt (qrBody pt formattedNumber accountNumber businessName)

/-- An uppercase hexadecimal digit: `0`-`9` or `A`-`F`. -/
def isUpperHexDigit (c : Char) : Bool :=
  ('0' ≤ c && c ≤ '9') || ('A' ≤ c && c ≤ 'F')

/-- JS `s.includes(t)` on the char-list view: `pat` occurs as a contiguous
segment of the second argument. -/
def hasSegment (pat : List Char) : List Char → Bool
  | [] => pat.isPrefixOf ([] : List Char)
  | c :: rest => pat.isPrefixOf (c :: rest) || hasSegment pat rest

set_option maxRecDepth 4000

/-- Claim C5: on each payment type the validator rejects the empty string;
paybill accepts exactly-6-digit "123456" and rejects "12345"; till accepts
"12345" and "123456" and rejects "1234"; phone accepts "0712345678",
"254712345678" and "712345678" and rejects "0812345678". -/
theorem claim_C5_validation_cases :
    (validateNumber .paybill (str "") = false ∧
     validateNumber .till (str "") = false ∧
     validateNumber .phone (str "") = false) ∧
    (validateNumber .paybill (str "123456") = true ∧
     validateNumber .paybill (str "12345") = false) ∧
    (validateNumber .till (str "12345") = true ∧
     validateNumber .till (str "123456") = true ∧
     validateNumber .till (str "1234") = false) ∧
    (validateNumber .phone (str "0712345678") = true ∧
     validateNumber .phone (str "254712345678") = true ∧
     validateNumber .phone (str "712345678") = true ∧
     validateNumber .phone (str "0812345678") = false) := by
  decide

/-- Claim C9: the payload builder is a pure function of its four inputs: two
invocations with equal inputs return equal outputs. -/
theorem claim_C9_deterministic (pt pt' : PaymentType) (n n' a a' b b' : List Char)
    (hpt : pt = pt') (hn : n = n') (ha : a = a') (hb : b = b') :
    generateQRValue pt n a b = generateQRValue pt' n' a' b' := by
  subst hpt; subst hn; subst ha; subst hb; rfl

/-- Witness for claim C9 at a concrete paybill input. -/
theorem claim_C9_witness :
    generateQRValue .paybill (str "123456") (str "00100") (str "Acme") =
    generateQRValue .paybill (str "123456") (str "00100") (str "Acme") :=
  claim_C9_deterministic .paybill .paybill (str "123456") (str "123456")
    (str "00100") (str "00100") (str "Acme") (str "Acme") rfl rfl rfl rfl

/-- First 20 characters of the C2 checksum body, pushed through the register. -/
lemma crcC2chunk1 :
    List.foldl crcChar 0xFFFF ((str "000201010226390014A0").map Char.toNat) = 27957 := by
  decide

/-- Characters 20-39 of the C2 checksum body, pushed through the register. -/
lemma crcC2chunk2 :
    List.foldl crcChar 27957 ((str "00000677010111010612").map Char.toNat) = 24343 := by
  decide

/-- Characters 40-59 of the C2 checksum body, pushed through the register. -/
lemma crcC2chunk3 :
    List.foldl crcChar 24343 ((str "34560205001005303KES").map Char.toNat) = 22359 := by
  decide

/-- Final characters of the C2 checksum body, pushed through the register. -/
lemma crcC2chunk4 :
    List.foldl crcChar 22359 ((str "5802KE5904Acme6304").map Char.toNat) = 57760 := by
  decide

/-- The checksum of the C2 scenario's accumulated text is "E1A0". -/
lemma crcC2 :
    crc16ccitt
      (str "000201010226390014A00000067701011101061234560205001005303KES5802KE5904Acme6304") =
    str "E1A0" := by
  have hsplit :
      str "000201010226390014A00000067701011101061234560205001005303KES5802KE5904Acme6304" =
      str "000201010226390014A0" ++ (str "00000677010111010612" ++
        (str "34560205001005303KES" ++ str "5802KE5904Acme6304")) := by decide
  rw [crc16ccitt, crc16num, hsplit]
  simp only [List.map_append, List.foldl_append]
  rw [crcC2chunk1, crcC2chunk2, crcC2chunk3, crcC2chunk4]
  decide

/-- The full payload of the C2 scenario, as a string literal. -/
lemma payC2 :
    generateQRValue .paybill (str "123456") (str "00100") (str "Acme") =
    str "000201010226390014A00000067701011101061234560205001005303KES5802KE5904Acme6304E1A0" := by
  have h1 :
      generateQRValue .paybill (str "123456") (str "00100") (str "Acme") =
      str "000201010226390014A00000067701011101061234560205001005303KES5802KE5904Acme6304" ++
      crc16ccitt
        (str "000201010226390014A00000067701011101061234560205001005303KES5802KE5904Acme6304") :=
    rfl
  rw [h1, crcC2]
  decide

/-- Claim C2 counterexample: for paybill "123456", account "00100", business
name "Acme", the generated payload does not begin with "000201010211" (it
begins "0002010102" and continues with the tag "26"), and it contains no
occurrence of "2619" followed by the merchant template value (the template's
declared length is 39, not 19). -/
theorem claim_C2_counterexample :
    (str "000201010211").isPrefixOf
      (generateQRValue .paybill (str "123456") (str "00100") (str "Acme")) = false ∧
    hasSegment (str "26190014A0000006770101110106123456020500100")
      (generateQRValue .paybill (str "123456") (str "00100") (str "Acme")) = false := by
  rw [payC2]
  decide

/-- Claim C2 as amended: for paybill "123456", account "00100", business name
"Acme", the payload begins "0002010102", contains "2639" immediately followed
by "0014A0000006770101110106123456020500100", then contains
"5303KES5802KE5904Acme6304", and ends with 4 uppercase-hex characters equal to
the checksum recomputed over everything before them. -/
theorem claim_C2_amended :
    generateQRValue .paybill (str "123456") (str "00100") (str "Acme") =
      str "000201010226390014A00000067701011101061234560205001005303KES5802KE5904Acme6304E1A0" ∧
    (str "0002010102").isPrefixOf
      (generateQRValue .paybill (str "123456") (str "00100") (str "Acme")) = true ∧
    hasSegment (str "26390014A0000006770101110106123456020500100")
      (generateQRValue .paybill (str "123456") (str "00100") (str "Acme")) = true ∧
    (str "5303KES5802KE5904Acme6304E1A0").isSuffixOf
      (generateQRValue .paybill (str "123456") (str "00100") (str "Acme")) = true ∧
    ((generateQRValue .paybill (str "123456") (str "00100") (str "Acme")).drop
        ((generateQRValue .paybill (str "123456") (str "00100") (str "Acme")).length - 4) =
      crc16ccitt
        ((generateQRValue .paybill (str "123456") (str "00100") (str "Acme")).take
          ((generateQRValue .paybill (str "123456") (str "00100") (str "Acme")).length - 4))) ∧
    ((generateQRValue .paybill (str "123456") (str "00100") (str "Acme")).drop
        ((generateQRValue .paybill (str "123456") (str "00100") (str "Acme")).length - 4)).all
      isUpperHexDigit = true := by
  rw [payC2]
  refine ⟨rfl, by decide, by decide, by decide, ?_, by decide⟩
  rw [show
    (str "000201010226390014A00000067701011101061234560205001005303KES5802KE5904Acme6304E1A0").take
      ((str "000201010226390014A00000067701011101061234560205001005303KES5802KE5904Acme6304E1A0").length
        - 4) =
    str "000201010226390014A00000067701011101061234560205001005303KES5802KE5904Acme6304"
    from by decide]
  rw [crcC2]
  decide

/-- Claim C1, code evaluated at the failing input (paybill "123456", no account,
no business name): the payload emits the GUID sub-field as "00" + "14" +
"A000000677010111", but the value "A000000677010111" has 16 characters, so the
declared length "14" differs from the "16" that the builder's own length-prefix
computation produces for this value. -/
theorem claim_C1_guid_length_bug :
    (str "A000000677010111").length = 16 ∧
    hasSegment (str "0014A000000677010111")
      (generateQRValue .paybill (str "123456") [] []) = true ∧
    lenField (str "A000000677010111") = str "16" ∧
    str "14" ≠ str "16" := by
  refine ⟨by decide, ?_, by decide, by decide⟩
  decide

/-- Each inner-loop step masks the register to 16 bits. -/
lemma crcBit_lt (r : Nat) : crcBit r < 65536 := by
  unfold crcBit
  split <;> exact lt_of_le_of_lt Nat.and_le_right (by norm_num)

/-- The register is below 2^16 after every character step. -/
lemma crcChar_lt (crc c : Nat) : crcChar crc c < 65536 := by
  simp only [crcChar, List.range_succ, List.range_zero, List.nil_append,
    List.foldl_append, List.foldl_cons, List.foldl_nil]
  exact crcBit_lt _

/-- The final register value of the checksum engine is below 2^16. -/
lemma crc16num_lt (cs : List Nat) : crc16num cs < 65536 := by
  suffices h : ∀ (l : List Nat) (init : Nat), init < 65536 →
      List.foldl crcChar init l < 65536 from h cs 0xFFFF (by norm_num)
  intro l
  induction l with
  | nil => intro init h; simpa using h
  | cons c cs ih =>
    intro init _
    simp only [List.foldl_cons]
    exact ih _ (crcChar_lt _ _)

/-- Every character produced by the base-16 renderer is one of the sixteen
digit characters. -/
lemma natToHexAux_mem :
    ∀ (fuel n : Nat), ∀ c ∈ natToHexAux fuel n, ∃ d, d < 16 ∧ c = hexDigitChar d := by
  intro fuel
  induction fuel with
  | zero => intro n c h; simp [natToHexAux] at h
  | succ f ih =>
    intro n c h
    unfold natToHexAux at h
    by_cases hn : n < 16
    · rw [if_pos hn] at h
      simp only [List.mem_singleton] at h
      exact ⟨n, hn, h⟩
    · rw [if_neg hn] at h
      rcases List.mem_append.mp h with h | h
      · exact ih _ _ h
      · simp only [List.mem_singleton] at h
        exact ⟨n % 16, Nat.mod_lt _ (by norm_num), h⟩

/-- With adequate fuel, a value below `16 ^ k` renders in at most `k` digits. -/
lemma natToHexAux_len :
    ∀ (k fuel n : Nat), n < fuel → n < 16 ^ k → 1 ≤ k →
      (natToHexAux fuel n).length ≤ k := by
  intro k
  induction k with
  | zero => intro fuel n _ _ hk; omega
  | succ k ih =>
    intro fuel n hfuel hn _
    match fuel, hfuel with
    | f + 1, hfuel =>
      unfold natToHexAux
      by_cases h16 : n < 16
      · rw [if_pos h16]
        simp
      · rw [if_neg h16]
        simp only [List.length_append, List.length_singleton]
        have hk1 : 1 ≤ k := by
          by_contra hk0
          have hk0' : k = 0 := by omega
          subst hk0'
          rw [pow_one] at hn
          omega
        have h1 : n / 16 < f := by omega
        have h2 : n / 16 < 16 ^ k := by
          apply Nat.div_lt_of_lt_mul
          rw [← pow_succ']
          exact hn
        have := ih f (n / 16) h1 h2 hk1
        omega

/-- The checksum engine always renders exactly 4 characters. -/
lemma crc16ccitt_length (s : List Char) : (crc16ccitt s).length = 4 := by
  unfold crc16ccitt
  have hlt : crc16num (s.map Char.toNat) < 65536 := crc16num_lt _
  have hlen : (natToHexLower (crc16num (s.map Char.toNat))).length ≤ 4 := by
    apply natToHexAux_len 4 _ _ (by omega) ?_ (by norm_num)
    have h16 : (16 : Nat) ^ 4 = 65536 := by norm_num
    omega
  simp only [padZero, List.length_append, List.length_replicate, List.length_map]
  omega

/-- Every character the checksum engine renders is an uppercase hex digit. -/
lemma crc16ccitt_chars (s : List Char) :
    ∀ c ∈ crc16ccitt s, isUpperHexDigit c = true := by
  intro c hc
  unfold crc16ccitt at hc
  rcases List.mem_append.mp hc with h | h
  · have := List.eq_of_mem_replicate h
    subst this
    decide
  · rcases List.mem_map.mp h with ⟨c', hc', rfl⟩
    obtain ⟨d, hd, rfl⟩ := natToHexAux_mem _ _ _ hc'
    have hx : ∀ d, d < 16 → isUpperHexDigit (Char.toUpper (hexDigitChar d)) = true := by
      decide
    exact hx d hd

/-- Claim C8: for every input string, the checksum engine's output is exactly
4 characters long and every character is 0-9 or A-F. -/
theorem claim_C8_checksum_output_shape (s : List Char) :
    (crc16ccitt s).length = 4 ∧ ∀ c ∈ crc16ccitt s, isUpperHexDigit c = true :=
  ⟨crc16ccitt_length s, crc16ccitt_chars s⟩

/-- Modelled from the claim's reference description of CRC-16/CCITT-FALSE: one
shift step — if bit 15 of the register is set, shift left by one and XOR the
polynomial 0x1021, otherwise just shift left; mask the register to 16 bits
after the step — rendered with arithmetic (doubling, division, mod) instead of
the source's bitwise operators. -/
def specBitStep (r : Nat) : Nat :=
  (if r / 2 ^ 15 % 2 = 1 then (2 * r) ^^^ 0x1021 else 2 * r) % 2 ^ 16

/-- Modelled from the claim's reference description: initialize the register to
0xFFFF and, for each code unit (a value in 0-255), XOR it into the high byte of
the register and perform eight shift steps. -/
def crc16spec (cs : List Nat) : Nat :=
  cs.foldl (fun r c => specBitStep^[8] (r ^^^ (c % 256 * 2 ^ 8))) 0xFFFF

/-- Masking with 0xFFFF is reduction mod 2^16. -/
lemma and_mask16 (x : Nat) : x &&& 65535 = x % 65536 := by
  have h := Nat.and_pow_two_sub_one_eq_mod x 16
  norm_num at h
  exact h

/-- The source's bit-15 test expressed through division. -/
lemma and_bit15 (r : Nat) : r &&& 32768 = r / 32768 % 2 * 32768 := by
  have h := Nat.and_two_pow r 15
  have ht : r.testBit 15 = decide (r / 2 ^ 15 % 2 = 1) := Nat.testBit_to_div_mod
  norm_num at h ht
  rw [h, ht]
  rcases Nat.mod_two_eq_zero_or_one (r / 32768) with h2 | h2 <;> simp [h2]

/-- The source's inner-loop step equals the reference shift step. -/
lemma crcBit_eq_specBitStep (r : Nat) : crcBit r = specBitStep r := by
  have hbit := and_bit15 r
  have hsh : r <<< 1 = 2 * r := by rw [Nat.shiftLeft_eq]; ring
  have hp15 : (2 : Nat) ^ 15 = 32768 := by norm_num
  have hp16 : (2 : Nat) ^ 16 = 65536 := by norm_num
  unfold crcBit specBitStep
  rw [hp15, hp16, hsh]
  simp only [and_mask16]
  by_cases h2 : r / 32768 % 2 = 1
  · have hne : r &&& 32768 ≠ 0 := by rw [hbit, h2]; norm_num
    rw [if_pos hne, if_pos h2]
  · have heq : r &&& 32768 = 0 := by rw [hbit]; omega
    rw [if_neg (by simp [heq]), if_neg h2]

/-- The source's per-character step equals the reference per-character step for
code units in 0-255. -/
lemma crcChar_eq_spec (r c : Nat) (hc : c ≤ 255) :
    crcChar r c = specBitStep^[8] (r ^^^ (c % 256 * 2 ^ 8)) := by
  have hc' : c % 256 = c := Nat.mod_eq_of_lt (by omega)
  rw [hc']
  unfold crcChar
  rw [Nat.shiftLeft_eq c 8]
  simp only [List.range_succ, List.range_zero, List.nil_append,
    List.foldl_append, List.foldl_cons, List.foldl_nil]
  simp only [crcBit_eq_specBitStep]
  rfl

/-- Folding the source step and folding the reference step agree on byte-valued
inputs, from any initial register. -/
lemma foldl_crc_eq_spec :
    ∀ (cs : List Nat), (∀ c ∈ cs, c ≤ 255) → ∀ init,
      List.foldl crcChar init cs =
      List.foldl (fun r c => specBitStep^[8] (r ^^^ (c % 256 * 2 ^ 8))) init cs := by
  intro cs
  induction cs with
  | nil => intro _ _; rfl
  | cons c cs ih =>
    intro h init
    simp only [List.foldl_cons]
    rw [crcChar_eq_spec init c (h c (List.mem_cons_self c cs))]
    exact ih (fun x hx => h x (List.mem_cons_of_mem c hx)) _

/-- Claim C4: on strings whose code units are all in 0-255, the source register
computation is exactly the CRC-16/CCITT-FALSE reference algorithm, and hence the
rendered checksum is the rendering of the reference register value. -/
theorem claim_C4_crc_matches_reference (s : List Char)
    (h : ∀ c ∈ s, Char.toNat c ≤ 255) :
    crc16num (s.map Char.toNat) = crc16spec (s.map Char.toNat) ∧
    crc16ccitt s =
      padZero 4 ((natToHexLower (crc16spec (s.map Char.toNat))).map Char.toUpper) := by
  have hnum : crc16num (s.map Char.toNat) = crc16spec (s.map Char.toNat) := by
    unfold crc16num crc16spec
    apply foldl_crc_eq_spec
    intro c hc
    rcases List.mem_map.mp hc with ⟨a, ha, rfl⟩
    exact h a ha
  exact ⟨hnum, by rw [crc16ccitt, hnum]⟩

/-- Witness for claim C4 on the concrete ASCII string "6304". -/
theorem claim_C4_witness :
    (∀ c ∈ str "6304", Char.toNat c ≤ 255) ∧
    (crc16num ((str "6304").map Char.toNat) = crc16spec ((str "6304").map Char.toNat) ∧
     crc16ccitt (str "6304") =
       padZero 4 ((natToHexLower (crc16spec ((str "6304").map Char.toNat))).map
         Char.toUpper)) :=
  ⟨by decide, claim_C4_crc_matches_reference (str "6304") (by decide)⟩

/-- A validated number is non-empty. -/
lemma validateNumber_ne_empty {pt : PaymentType} {v : List Char}
    (h : validateNumber pt v = true) : v.isEmpty = false := by
  cases he : v.isEmpty
  · rfl
  · exfalso
    unfold validateNumber at h
    rw [he] at h
    simp at h

/-- On validated input the builder returns body plus checksum of the body. -/
lemma generateQRValue_valid {pt : PaymentType} {n : List Char} (a b : List Char)
    (h : validateNumber pt n = true) :
    generateQRValue pt n a b =
      qrBody pt (formatNumber pt n) a b ++
      crc16ccitt (qrBody pt (formatNumber pt n) a b) := by
  unfold generateQRValue
  rw [validateNumber_ne_empty h, h]
  rfl

/-- Splitting a body-plus-checksum payload at its last four characters. -/
lemma payload_take_drop (Q : List Char) :
    (Q ++ crc16ccitt Q).take ((Q ++ crc16ccitt Q).length - 4) = Q ∧
    (Q ++ crc16ccitt Q).drop ((Q ++ crc16ccitt Q).length - 4) = crc16ccitt Q := by
  have h4 : (crc16ccitt Q).length = 4 := crc16ccitt_length Q
  have hlen : (Q ++ crc16ccitt Q).length - 4 = Q.length := by
    simp [List.length_append, h4]
  rw [hlen]
  exact ⟨List.take_left Q _, List.drop_left Q _⟩

/-- The checksum body ends with the `6304` header. -/
lemma qrBody_ends_6304 (pt : PaymentType) (f a b : List Char) :
    ∃ front, qrBody pt f a b = front ++ str "6304" := by
  refine ⟨str "000201" ++ str "0102" ++
    (str "26" ++ lenField (merchantInfoFor pt f a) ++ merchantInfoFor pt f a) ++
    str "5303KES" ++ str "5802KE" ++
    (if b.isEmpty then [] else str "59" ++ lenField b ++ b), ?_⟩
  unfold qrBody
  simp [List.append_assoc]

/-- Claim C3: on every validated input the final 4 characters of the payload
are the checksum of everything before them, and that checksummed front itself
ends with the `6304` header. -/
theorem claim_C3_checksum_placement (pt : PaymentType) (n a b : List Char)
    (h : validateNumber pt n = true) :
    (generateQRValue pt n a b).drop ((generateQRValue pt n a b).length - 4) =
      crc16ccitt
        ((generateQRValue pt n a b).take ((generateQRValue pt n a b).length - 4)) ∧
    ∃ front,
      (generateQRValue pt n a b).take ((generateQRValue pt n a b).length - 4) =
        front ++ str "6304" := by
  rw [generateQRValue_valid a b h]
  obtain ⟨htake, hdrop⟩ := payload_take_drop (qrBody pt (formatNumber pt n) a b)
  rw [htake, hdrop]
  exact ⟨rfl, qrBody_ends_6304 pt (formatNumber pt n) a b⟩

/-- Witness for claim C3 at paybill "123456" with no account and no name. -/
theorem claim_C3_witness :
    validateNumber .paybill (str "123456") = true ∧
    ((generateQRValue .paybill (str "123456") [] []).drop
        ((generateQRValue .paybill (str "123456") [] []).length - 4) =
      crc16ccitt
        ((generateQRValue .paybill (str "123456") [] []).take
          ((generateQRValue .paybill (str "123456") [] []).length - 4)) ∧
     ∃ front,
       (generateQRValue .paybill (str "123456") [] []).take
           ((generateQRValue .paybill (str "123456") [] []).length - 4) =
         front ++ str "6304") :=
  ⟨by decide, claim_C3_checksum_placement .paybill (str "123456") [] [] (by decide)⟩

/-- Claim C7: the builder returns the empty result exactly when the number is
empty or fails validation; every validated input yields a non-empty payload. -/
theorem claim_C7_failure_iff_invalid (pt : PaymentType) (n a b : List Char) :
    generateQRValue pt n a b = [] ↔ (n = [] ∨ validateNumber pt n = false) := by
  constructor
  · intro h
    by_cases hv : validateNumber pt n = true
    · exfalso
      rw [generateQRValue_valid a b hv] at h
      have hbody : qrBody pt (formatNumber pt n) a b = [] :=
        (List.append_eq_nil.mp h).1
      obtain ⟨front, hf⟩ := qrBody_ends_6304 pt (formatNumber pt n) a b
      rw [hf] at hbody
      exact absurd (List.append_eq_nil.mp hbody).2 (by decide)
    · right
      simp only [Bool.not_eq_true] at hv
      exact hv
  · intro h
    rcases h with h | h
    · subst h
      rfl
    · unfold generateQRValue
      rw [h]
      simp

/-- Digit stripping keeps only digits. -/
lemma cleanDigits_all (l : List Char) : (cleanDigits l).all Char.isDigit = true := by
  unfold cleanDigits
  rw [List.all_eq_true]
  intro a ha
  exact (List.mem_filter.mp ha).2

/-- Digit stripping fixes all-digit strings. -/
lemma cleanDigits_of_all {l : List Char} (h : l.all Char.isDigit = true) :
    cleanDigits l = l := by
  unfold cleanDigits
  apply List.filter_eq_self.mpr
  intro a ha
  exact (List.all_eq_true.mp h) a ha

/-- "254" is a prefix of "254" followed by anything. -/
lemma is254_append (x : List Char) : (str "254").isPrefixOf (str "254" ++ x) = true := by
  show (['2', '5', '4'] : List Char).isPrefixOf (['2', '5', '4'] ++ x) = true
  simp [List.isPrefixOf]

/-- An all-digit string starting with "254" is a fixed point of phone
normalization. -/
lemma formatNumber_phone_fixed {y : List Char} (hd : y.all Char.isDigit = true)
    (hp : (str "254").isPrefixOf y = true) :
    formatNumber .phone y = y := by
  unfold formatNumber
  rw [cleanDigits_of_all hd, hp]
  simp

/-- Phone normalization is idempotent on every input. -/
lemma formatNumber_phone_idem (v : List Char) :
    formatNumber .phone (formatNumber .phone v) = formatNumber .phone v := by
  have hcall := cleanDigits_all v
  have hcc : cleanDigits (cleanDigits v) = cleanDigits v := cleanDigits_of_all hcall
  by_cases h254 : (str "254").isPrefixOf (cleanDigits v) = true
  · have hfmt : formatNumber .phone v = cleanDigits v := by
      unfold formatNumber
      rw [h254]
      simp
    rw [hfmt]
    exact formatNumber_phone_fixed hcall h254
  · by_cases h0 : (str "0").isPrefixOf (cleanDigits v) = true
    · have hfmt : formatNumber .phone v = str "254" ++ (cleanDigits v).drop 1 := by
        unfold formatNumber
        simp [h254, h0]
      rw [hfmt]
      apply formatNumber_phone_fixed
      · rw [List.all_append, Bool.and_eq_true]
        refine ⟨by decide, ?_⟩
        rw [List.all_eq_true]
        intro a ha
        exact (List.all_eq_true.mp hcall) a (List.drop_subset 1 _ ha)
      · exact is254_append _
    · by_cases h9 : (cleanDigits v).length = 9
      · have hfmt : formatNumber .phone v = str "254" ++ cleanDigits v := by
          unfold formatNumber
          simp [h254, h0, h9]
        rw [hfmt]
        apply formatNumber_phone_fixed
        · rw [List.all_append, Bool.and_eq_true]
          exact ⟨by decide, hcall⟩
        · exact is254_append _
      · have hfmt : formatNumber .phone v = cleanDigits v := by
          unfold formatNumber
          simp [h254, h0, h9]
        rw [hfmt]
        unfold formatNumber
        rw [hcc]
        simp [h254, h0, h9]

/-- Claim C6: phone normalization is idempotent on the accepted forms, and the
three accepted forms of one subscriber number all normalize to the same
"254"-prefixed result. -/
theorem claim_C6_normalization_idempotent :
    (∀ v : List Char, validateNumber .phone v = true →
      formatNumber .phone (formatNumber .phone v) = formatNumber .phone v) ∧
    (∀ s : List Char, s.length = 9 → s.all Char.isDigit = true →
      s.head? = some '7' →
      formatNumber .phone ('0' :: s) = str "254" ++ s ∧
      formatNumber .phone (str "254" ++ s) = str "254" ++ s ∧
      formatNumber .phone s = str "254" ++ s) := by
  constructor
  · intro v _
    exact formatNumber_phone_idem v
  · intro s hlen hdig hhead
    match s, hhead with
    | a :: t, hhead =>
      have ha : a = '7' := by
        simpa using hhead
      subst ha
      have hlen' : t.length = 8 := by
        simpa using hlen
      refine ⟨?_, ?_, ?_⟩
      · unfold formatNumber
        have hall : ('0' :: '7' :: t).all Char.isDigit = true := by
          simp only [List.all_cons, Bool.and_eq_true]
          exact ⟨by decide, by simpa using hdig⟩
        rw [cleanDigits_of_all hall]
        simp [List.isPrefixOf]
      · exact formatNumber_phone_fixed
          (by rw [List.all_append, Bool.and_eq_true]; exact ⟨by decide, hdig⟩)
          (is254_append _)
      · unfold formatNumber
        rw [cleanDigits_of_all hdig]
        simp [List.isPrefixOf, hlen']

/-- Witness for claim C6 on subscriber number "712345678". -/
theorem claim_C6_witness :
    (validateNumber .phone (str "0712345678") = true ∧
     formatNumber .phone (formatNumber .phone (str "0712345678")) =
       formatNumber .phone (str "0712345678")) ∧
    ((str "712345678").length = 9 ∧
     (str "712345678").all Char.isDigit = true ∧
     (str "712345678").head? = some '7' ∧
     (formatNumber .phone ('0' :: str "712345678") = str "254" ++ str "712345678" ∧
      formatNumber .phone (str "254" ++ str "712345678") =
        str "254" ++ str "712345678" ∧
      formatNumber .phone (str "712345678") = str "254" ++ str "712345678")) :=
  ⟨⟨by decide,
    claim_C6_normalization_idempotent.1 (str "0712345678") (by decide)⟩,
   ⟨by decide, by decide, by decide,
    claim_C6_normalization_idempotent.2 (str "712345678") (by decide) (by decide)
      (by decide)⟩⟩

/-- The decimal renderer emits at least one digit when it has fuel. -/
lemma natToDecAux_len1 (fuel n : Nat) (h : 0 < fuel) :
    1 ≤ (natToDecAux fuel n).length := by
  match fuel, h with
  | f + 1, _ =>
    unfold natToDecAux
    by_cases h10 : n < 10
    · rw [if_pos h10]
      simp
    · rw [if_neg h10]
      simp

/-- Values of at least 10 render in at least two decimal digits. -/
lemma natToDecAux_len2 (fuel n : Nat) (hf : n < fuel) (hn : 10 ≤ n) :
    2 ≤ (natToDecAux fuel n).length := by
  match fuel, hf with
  | f + 1, hf =>
    unfold natToDecAux
    rw [if_neg (by omega)]
    simp only [List.length_append, List.length_singleton]
    have := natToDecAux_len1 f (n / 10) (by omega)
    omega

/-- Values of at least 100 render in at least three decimal digits. -/
lemma natToDecAux_len3 (fuel n : Nat) (hf : n < fuel) (hn : 100 ≤ n) :
    3 ≤ (natToDecAux fuel n).length := by
  match fuel, hf with
  | f + 1, hf =>
    unfold natToDecAux
    rw [if_neg (by omega)]
    simp only [List.length_append, List.length_singleton]
    have := natToDecAux_len2 f (n / 10) (by omega) (by omega)
    omega

/-- The 2-digit padding cannot shorten: a value of 100 or more yields a length
prefix of at least three characters. -/
lemma lenField_ge3 {v : List Char} (h : 100 ≤ v.length) :
    3 ≤ (lenField v).length := by
  unfold lenField padZero natToDec
  simp only [List.length_append, List.length_replicate]
  have := natToDecAux_len3 (v.length + 1) v.length (by omega) h
  omega

/-- A list of length at least 100 is not empty. -/
lemma isEmpty_false_of_long {v : List Char} (h : 100 ≤ v.length) :
    v.isEmpty = false := by
  cases v with
  | nil => simp at h
  | cons a t => rfl

/-- Any bracketed middle segment of a concatenation can be exhibited with
explicit surroundings. -/
lemma append_split3 {α : Type} (A seg B C : List α) :
    ∃ pre post, (A ++ seg ++ B) ++ C = pre ++ seg ++ post :=
  ⟨A, B ++ C, by simp [List.append_assoc]⟩

/-- Claim C10: for valid paybill inputs whose account number (respectively
business name) has 100 or more characters, the builder still produces a
payload, and the emitted length prefix of that field has three or more decimal
digits, appearing verbatim in the payload. -/
theorem claim_C10_overlong_fields :
    (∀ n acc biz : List Char, validateNumber .paybill n = true →
      100 ≤ acc.length →
      generateQRValue .paybill n acc biz ≠ [] ∧
      3 ≤ (lenField acc).length ∧
      ∃ pre post, generateQRValue .paybill n acc biz =
        pre ++ (str "02" ++ lenField acc ++ acc) ++ post) ∧
    (∀ n acc biz : List Char, validateNumber .paybill n = true →
      100 ≤ biz.length →
      generateQRValue .paybill n acc biz ≠ [] ∧
      3 ≤ (lenField biz).length ∧
      ∃ pre post, generateQRValue .paybill n acc biz =
        pre ++ (str "59" ++ lenField biz ++ biz) ++ post) := by
  constructor
  · intro n acc biz hv hlong
    have hq : qrBody .paybill (formatNumber .paybill n) acc biz =
        (str "000201" ++ str "0102" ++ str "26" ++
          lenField (merchantInfoFor .paybill (formatNumber .paybill n) acc) ++
          str "00" ++ str "14" ++ str "A000000677010111" ++
          str "01" ++ lenField (formatNumber .paybill n) ++ formatNumber .paybill n) ++
        (str "02" ++ lenField acc ++ acc) ++
        (str "5303KES" ++ str "5802KE" ++
          (if biz.isEmpty then [] else str "59" ++ lenField biz ++ biz) ++
          str "6304") := by
      unfold qrBody merchantInfoFor
      rw [isEmpty_false_of_long hlong]
      simp [List.append_assoc]
    refine ⟨?_, lenField_ge3 hlong, ?_⟩
    · rw [generateQRValue_valid acc biz hv]
      intro hnil
      have hbody : qrBody .paybill (formatNumber .paybill n) acc biz = [] :=
        (List.append_eq_nil.mp hnil).1
      obtain ⟨front, hf⟩ := qrBody_ends_6304 .paybill (formatNumber .paybill n) acc biz
      rw [hf] at hbody
      exact absurd (List.append_eq_nil.mp hbody).2 (by decide)
    · rw [generateQRValue_valid acc biz hv, hq]
      exact append_split3 _ _ _ _
  · intro n acc biz hv hlong
    have hq : qrBody .paybill (formatNumber .paybill n) acc biz =
        (str "000201" ++ str "0102" ++ str "26" ++
          lenField (merchantInfoFor .paybill (formatNumber .paybill n) acc) ++
          str "00" ++ str "14" ++ str "A000000677010111" ++
          str "01" ++ lenField (formatNumber .paybill n) ++ formatNumber .paybill n ++
          (if acc.isEmpty then [] else str "02" ++ lenField acc ++ acc) ++
          str "5303KES" ++ str "5802KE") ++
        (str "59" ++ lenField biz ++ biz) ++
        str "6304" := by
      unfold qrBody merchantInfoFor
      rw [isEmpty_false_of_long hlong]
      simp [List.append_assoc]
    refine ⟨?_, lenField_ge3 hlong, ?_⟩
    · rw [generateQRValue_valid acc biz hv]
      intro hnil
      have hbody : qrBody .paybill (formatNumber .paybill n) acc biz = [] :=
        (List.append_eq_nil.mp hnil).1
      obtain ⟨front, hf⟩ := qrBody_ends_6304 .paybill (formatNumber .paybill n) acc biz
      rw [hf] at hbody
      exact absurd (List.append_eq_nil.mp hbody).2 (by decide)
    · rw [generateQRValue_valid acc biz hv, hq]
      exact append_split3 _ _ _ _

/-- Witness for claim C10 with a 100-character account number and a
100-character business name. -/
theorem claim_C10_witness :
    (validateNumber .paybill (str "123456") = true ∧
     100 ≤ (List.replicate 100 'x').length ∧
     (generateQRValue .paybill (str "123456") (List.replicate 100 'x') [] ≠ [] ∧
      3 ≤ (lenField (List.replicate 100 'x')).length ∧
      ∃ pre post,
        generateQRValue .paybill (str "123456") (List.replicate 100 'x') [] =
          pre ++ (str "02" ++ lenField (List.replicate 100 'x') ++
            List.replicate 100 'x') ++ post)) ∧
    (validateNumber .paybill (str "123456") = true ∧
     100 ≤ (List.replicate 100 'y').length ∧
     (generateQRValue .paybill (str "123456") [] (List.replicate 100 'y') ≠ [] ∧
      3 ≤ (lenField (List.replicate 100 'y')).length ∧
      ∃ pre post,
        generateQRValue .paybill (str "123456") [] (List.replicate 100 'y') =
          pre ++ (str "59" ++ lenField (List.replicate 100 'y') ++
            List.replicate 100 'y') ++ post)) :=
  ⟨⟨by decide, by simp,
    claim_C10_overlong_fields.1 (str "123456") (List.replicate 100 'x') []
      (by decide) (by simp)⟩,
   ⟨by decide, by simp,
    claim_C10_overlong_fields.2 (str "123456") [] (List.replicate 100 'y')
      (by decide) (by simp)⟩⟩

end PesaQR
